import Mathlib

/-!
Shallow embedding of `src/mpi_comm_bench.cpp` (an MPI ring bandwidth
benchmark) together with theorems settling the specification claims.

Modelling conventions:
* `double` values are modelled as exact rationals (`ℚ`); the claims under
  study concern the algebraic dataflow of the program, not binary rounding.
* `size_t` values are natural numbers; where the source performs `size_t`
  arithmetic that can wrap (the product `2 * msg_size` at line 142), the
  wrap is modelled explicitly with `% 2^64`.
* The conversion `static_cast< int >( msg_size )` (lines 128 and 133) is
  modelled as reduction modulo `2^32` reinterpreted as a signed value, the
  behaviour mandated by C++20 and implemented by the mainstream compilers.
* MPI collectives are modelled functionally: the three `MPI_Reduce` calls
  for a metric deliver min, max and sum of the per-rank contributions at
  rank 0; `MPI_Sendrecv` is recorded as an opaque communication action
  (its byte count and peers), since buffer movement itself is not the
  subject of any claim.
* The infinite `while ( true )` loop is modelled on a finite list of
  injected per-iteration measurements (one list of per-rank durations per
  iteration): the model produces the output of the first `k` iterations.
-/

namespace MpiCommBench

/-- Model of `has_flag` (lines 29-39): returns true iff some argument
(after the program name) equals the flag exactly. -/
def has_flag (args : List String) (flag : String) : Bool :=
  args.any fun a => a == flag

/-- Model of `get_flag_value` (lines 45-61): scanning the arguments in
order, an argument starting with `flag ++ "="` yields the suffix after the
`=`; an argument equal to `flag` yields the following argument when one
exists; otherwise the scan continues, ending in `none`.  String prefix
testing and suffix extraction are written over the underlying character
lists so that every operation is a structural recursion. -/
def get_flag_value : List String → String → Option String
  | [], _ => none
  | a :: rest, flag =>
    if List.isPrefixOf (flag ++ "=").data a.data then
      some (String.mk (a.data.drop (flag ++ "=").data.length))
    else if a == flag then
      rest.head?
    else
      get_flag_value rest flag

/-- Digit accumulator for the integral part of a decimal string. -/
def natOfDigits : List Char → Nat → Nat
  | [], acc => acc
  | c :: rest, acc => natOfDigits rest (acc * 10 + (c.toNat - 48))

/-- Model of `static_cast< size_t >( std::stod( s ) )` (line 76) for the
plain decimal inputs relevant here: the leading run of digits is read as a
natural number (a fractional part, if any, is truncated away by the cast,
which is what dropping the non-digit tail achieves). -/
def stodTruncNat (s : String) : Nat :=
  natOfDigits (s.data.takeWhile Char.isDigit) 0

/-- The run configuration assembled by `main` before the loop
(lines 70-79): message size, sleep interval, GPU mode. -/
structure Config where
  msg_size : Nat
  interval_sec : ℚ
  use_gpu : Bool
  deriving DecidableEq

/-- Model of the configuration block of `main`, lines 70-79.  `msg_size`
defaults to `1024 * 1024` and is overridden by `--msg-size`;
`interval_sec` is the literal `1.0` of line 71 — the source contains no
`get_flag_value( argc, argv, "--interval" )` call and never reassigns it;
`use_gpu` is the presence of `--gpu`. -/
def parseConfig (args : List String) : Config :=
  { msg_size :=
      match get_flag_value args "--msg-size" with
      | some v => stodTruncNat v
      | none => 1024 * 1024
    interval_sec := 1
    use_gpu := has_flag args "--gpu" }

/-- Model of the guard at line 118: the sleep before the barrier is
executed iff `interval_sec > 0`. -/
def sleepBeforeBarrier (cfg : Config) : Bool :=
  decide (0 < cfg.interval_sec)

/-- Ring successor, line 90: `( rank + 1 ) % num_processes` with C++
truncated `%` (`Int.tmod`). -/
def ringNext (rank num_processes : Int) : Int :=
  Int.tmod (rank + 1) num_processes

/-- Ring predecessor, line 91: `( rank - 1 + num_processes ) %
num_processes` with C++ truncated `%` (`Int.tmod`). -/
def ringPrev (rank num_processes : Int) : Int :=
  Int.tmod (rank - 1 + num_processes) num_processes

/-- `static_cast< int >` of a `size_t` value (lines 128 and 133):
reduction modulo `2^32`, reinterpreted as a signed 32-bit value. -/
def int32cast (n : Nat) : Int :=
  if n % 4294967296 < 2147483648 then ((n % 4294967296 : Nat) : Int)
  else ((n % 4294967296 : Nat) : Int) - 4294967296

/-- The memory space a buffer lives in (host `malloc` path vs CUDA device
path of lines 96-114). -/
inductive MemSpace where
  | host
  | device
  deriving DecidableEq

/-- A pair of per-rank buffers: the byte size requested at allocation and
the byte contents of the send and receive regions (indexed by offset). -/
structure Buffers where
  size : Nat
  send_buf : Nat → Nat
  recv_buf : Nat → Nat

/-- Buffer allocation, lines 96-114.  The device path (lines 99-103) is
`cudaMalloc( msg_size )` for each buffer followed by
`cudaMemset( _, 0, msg_size )`, so device buffers are all-zero.  The host
path (lines 112-113) is plain `malloc( msg_size )` with no `memset`:
`malloc` leaves the contents indeterminate, which the model makes
explicit by taking the contents `raw_send` / `raw_recv` the environment
happens to supply. -/
def allocateBuffers : MemSpace → Nat → (Nat → Nat) → (Nat → Nat) → Buffers
  | MemSpace.device, msg, _, _ => ⟨msg, fun _ => 0, fun _ => 0⟩
  | MemSpace.host, msg, raw_send, raw_recv => ⟨msg, raw_send, raw_recv⟩

/-- The diagnostic printed at line 106 by rank 0 (sans trailing newline)
when `--gpu` is requested on a build compiled without `USE_CUDA`. -/
def gpuBuildError : String :=
  "GPU mode requested but binary not built with USE_CUDA=1."

/-- Calls into the CUDA runtime. -/
inductive CudaCall where
  | malloc (bytes : Nat)
  | memset (val : Nat) (bytes : Nat)
  | getDeviceCount
  | setDevice (d : Nat)
  deriving DecidableEq

/-- The exact sequence of CUDA runtime calls the `USE_CUDA` build issues
before the loop (lines 99-103): two allocations and two zeroings.  The
source contains no `cudaGetDeviceCount` and no `cudaSetDevice` call
anywhere, so this list is the whole device interaction at startup. -/
def cudaSetupCalls (msg_size : Nat) : List CudaCall :=
  [CudaCall.malloc msg_size, CudaCall.malloc msg_size,
   CudaCall.memset 0 msg_size, CudaCall.memset 0 msg_size]

/-- Whether a CUDA call sequence ever queries how many devices exist. -/
def queriesDeviceCount (calls : List CudaCall) : Bool :=
  calls.any fun c =>
    match c with
    | CudaCall.getDeviceCount => true
    | _ => false

/-- Whether a CUDA call sequence ever selects a specific device. -/
def selectsDevice (calls : List CudaCall) : Bool :=
  calls.any fun c =>
    match c with
    | CudaCall.setDevice _ => true
    | _ => false

/-- Outcome of the pre-loop setup of one rank: either it proceeds into
the measurement loop with its buffers, or the whole group is torn down
via `MPI_Abort` with the given exit code, the listed diagnostics having
been emitted by this rank beforehand. -/
inductive SetupOutcome where
  | proceed (bufs : Buffers)
  | abortAll (code : Nat) (errs : List String)

/-- The pre-loop setup of `main`, lines 96-114, parameterised by whether
the binary was compiled with `USE_CUDA` (the `#ifdef` at line 98).  With
`--gpu` on a CUDA build the device buffers are allocated and zeroed; with
`--gpu` on a non-CUDA build rank 0 prints the diagnostic and every rank
calls `MPI_Abort( MPI_COMM_WORLD, 1 )` (lines 105-107); without `--gpu`
the host buffers are `malloc`ed. -/
def preLoop (cudaBuild : Bool) (cfg : Config) (rank : Int)
    (raw_send raw_recv : Nat → Nat) : SetupOutcome :=
  if cfg.use_gpu then
    if cudaBuild then
      SetupOutcome.proceed (allocateBuffers MemSpace.device cfg.msg_size raw_send raw_recv)
    else
      SetupOutcome.abortAll 1 (if rank = 0 then [gpuBuildError] else [])
  else
    SetupOutcome.proceed (allocateBuffers MemSpace.host cfg.msg_size raw_send raw_recv)

/-- The communication action of one loop iteration. -/
inductive ExchangeOp where
  | sendrecv (count : Int) (dest : Int) (src : Int)
  | localMemcpy
  deriving DecidableEq

/-- The communication statement of the loop body, lines 126-138: an
unconditional `MPI_Sendrecv` whose send and receive counts are both
`static_cast< int >( msg_size )`, addressed to `next` and sourced from
`prev`.  The source contains no `memcpy` / `cudaMemcpy` call and no other
communication path (the `--mem-copy-local` mode described by the README
is not implemented). -/
def iterationExchange (cfg : Config) (next prev : Int) : ExchangeOp :=
  ExchangeOp.sendrecv (int32cast cfg.msg_size) next prev

/-- The bandwidth sample of line 142:
`static_cast< double >( 2 * msg_size ) / dt / 1e9`.  The product
`2 * msg_size` is `size_t` arithmetic and therefore wraps modulo `2^64`,
which the model keeps explicit; the subsequent divisions are exact
rational arithmetic here. -/
def bandwidthOf (msg_size : Nat) (dt : ℚ) : ℚ :=
  ((2 * msg_size % 18446744073709551616 : Nat) : ℚ) / dt / 1000000000

/-- The per-rank bandwidth samples of one iteration, given the per-rank
durations: rank `r` computes `bandwidthOf msg_size (dts r)` at line 142. -/
def iterationSamples (msg_size : Nat) (dts : List ℚ) : List ℚ :=
  dts.map (bandwidthOf msg_size)

/-- `MPI_Reduce` with `MPI_MIN` over the per-rank contributions
(lines 150 and 162), delivered at rank 0. -/
def reduceMin : List ℚ → ℚ
  | [] => 0
  | x :: rest => rest.foldl min x

/-- `MPI_Reduce` with `MPI_MAX` over the per-rank contributions
(lines 151 and 163), delivered at rank 0. -/
def reduceMax : List ℚ → ℚ
  | [] => 0
  | x :: rest => rest.foldl max x

/-- `MPI_Reduce` with `MPI_SUM` over the per-rank contributions
(lines 152 and 164), delivered at rank 0. -/
def reduceSum (xs : List ℚ) : ℚ :=
  xs.foldl (· + ·) 0

/-- The six aggregated values of one iteration. -/
structure IterationStats where
  bw_min : ℚ
  bw_max : ℚ
  bw_avg : ℚ
  dt_min : ℚ
  dt_max : ℚ
  dt_avg : ℚ
  deriving DecidableEq

/-- The aggregation of one iteration, lines 144-166: each metric is
reduced to min, max and sum across ranks, and the mean is formed by the
single division by `num_processes` at lines 154 and 166. -/
def iterationStats (msg_size num_processes : Nat) (dts : List ℚ) : IterationStats :=
  let bws := iterationSamples msg_size dts
  { bw_min := reduceMin bws
    bw_max := reduceMax bws
    bw_avg := reduceSum bws / num_processes
    dt_min := reduceMin dts
    dt_max := reduceMax dts
    dt_avg := reduceSum dts / num_processes }

/-- Fixed-point formatting with three fraction digits, the effect of
`std::fixed << std::setprecision( 3 )` at line 170 on the exact rational
value: the value is scaled by 1000, rounded to the nearest integer (half
away from zero does not arise in the statements below), and printed with
the fraction part zero-padded to width 3. -/
def fmtFixed3 (q : ℚ) : String :=
  let m : Int := ⌊q * 1000 + 1 / 2⌋
  let a : Nat := m.natAbs
  let fracStr := Nat.repr (a % 1000)
  (if m < 0 then "-" else "") ++ Nat.repr (a / 1000) ++ "." ++
    String.mk (List.replicate (3 - fracStr.length) '0') ++ fracStr

/-- `std::setw( 10 )`: the next item is right-justified in a field of
width 10, padded with spaces (wider items are not truncated). -/
def setw10 (s : String) : String :=
  String.mk (List.replicate (10 - s.length) ' ') ++ s

/-- The statistics line of lines 170-175, as a function of the six
aggregated values: fixed 3-decimal formatting, each value in a
`setw( 10 )` field, bandwidth min/max/avg in GB/s first, then duration
min/max/avg scaled by `1e3` into milliseconds. -/
def reportLine (bwMin bwMax bwAvg dtMin dtMax dtAvg : ℚ) : String :=
  "Bandwidth (send + recv): min = " ++ setw10 (fmtFixed3 bwMin) ++
    " GB/s | max = " ++ setw10 (fmtFixed3 bwMax) ++
    " GB/s | avg = " ++ setw10 (fmtFixed3 bwAvg) ++
    " GB/s || Duration (send + recv): min = " ++ setw10 (fmtFixed3 (dtMin * 1000)) ++
    " ms | max = " ++ setw10 (fmtFixed3 (dtMax * 1000)) ++
    " ms | avg = " ++ setw10 (fmtFixed3 (dtAvg * 1000)) ++ " ms"

/-- The line rank 0 prints for one iteration (lines 168-176), as a
function of the configured message size, the group size and the per-rank
durations of that iteration. -/
def iterationLine (msg_size num_processes : Nat) (dts : List ℚ) : String :=
  let s := iterationStats msg_size num_processes dts
  reportLine s.bw_min s.bw_max s.bw_avg s.dt_min s.dt_max s.dt_avg

/-- The statistics lines rank 0 emits over a run, one per iteration of
the loop, given the injected per-iteration lists of per-rank durations. -/
def rootStatsLines (msg_size num_processes : Nat) (dtss : List (List ℚ)) : List String :=
  dtss.map (iterationLine msg_size num_processes)

/-- What one rank observably does in a run: whether (and with which code)
it was terminated by `MPI_Abort` during setup, the statistics lines it
printed to stdout, and the diagnostics it printed to stderr.
`exitCode = none` means the rank entered the perpetual loop (of which the
model shows the first `dtss.length` iterations). -/
structure RankResult where
  exitCode : Option Nat
  statsLines : List String
  errLines : List String
  deriving DecidableEq

/-- One rank's view of `main`: parse the configuration (lines 70-79),
derive the topology and run the setup of lines 90-114; on `MPI_Abort` the
process dies with the abort code having printed no statistics; otherwise
the loop of lines 116-177 runs, and only rank 0 prints a statistics line
per iteration (guard at line 168). -/
def runRank (cudaBuild : Bool) (args : List String) (rank : Int)
    (num_processes : Nat) (dtss : List (List ℚ))
    (raw_send raw_recv : Nat → Nat) : RankResult :=
  let cfg := parseConfig args
  match preLoop cudaBuild cfg rank raw_send raw_recv with
  | SetupOutcome.abortAll code errs =>
      { exitCode := some code, statsLines := [], errLines := errs }
  | SetupOutcome.proceed _ =>
      { exitCode := none
        statsLines :=
          if rank = 0 then rootStatsLines cfg.msg_size num_processes dtss else []
        errLines := [] }

/-! Helper lemmas. -/

theorem foldl_add_eq_add_sum (l : List ℚ) : ∀ a : ℚ, l.foldl (· + ·) a = a + l.sum := by
  induction l with
  | nil => intro a; simp
  | cons x xs ih => intro a; simp only [List.foldl_cons, ih, List.sum_cons]; ring

theorem reduceSum_eq_sum (l : List ℚ) : reduceSum l = l.sum := by
  unfold reduceSum
  rw [foldl_add_eq_add_sum]
  ring

theorem iterationSamples_getD (msg_size : Nat) (dts : List ℚ) (r : Nat)
    (hr : r < dts.length) :
    (iterationSamples msg_size dts).getD r 0 = bandwidthOf msg_size (dts.getD r 0) := by
  unfold iterationSamples
  induction dts generalizing r with
  | nil => simp at hr
  | cons x xs ih =>
    cases r with
    | zero => simp
    | succ k =>
      simp only [List.map_cons, List.getD_cons_succ]
      exact ih k (by simpa using hr)

/-! Claim theorems. -/

/-- C1: for every iteration and every group size `N ≥ 1`, the aggregated
mean of a metric (bandwidth or duration) materialised at the root rank
equals the sum of all `N` per-rank samples divided by `N`: the sum
reduction of lines 152/164 followed by the single division of
lines 154/166 yields exactly `(Σ samples) / N`, not an average of partial
averages. -/
theorem c1_mean_is_sum_div_group_size (msg_size N : Nat) (dts : List ℚ)
    (_hN : 1 ≤ N) (_hlen : dts.length = N) :
    (iterationStats msg_size N dts).bw_avg = (iterationSamples msg_size dts).sum / (N : ℚ) ∧
    (iterationStats msg_size N dts).dt_avg = dts.sum / (N : ℚ) := by
  constructor <;> simp [iterationStats, reduceSum_eq_sum]

theorem c1_witness :
    1 ≤ 2 ∧ ([(3 : ℚ), 5]).length = 2 ∧
    ((iterationStats 1 2 [3, 5]).bw_avg = (iterationSamples 1 [3, 5]).sum / (2 : ℚ) ∧
     (iterationStats 1 2 [3, 5]).dt_avg = ([(3 : ℚ), 5]).sum / (2 : ℚ)) :=
  ⟨by omega, rfl, c1_mean_is_sum_div_group_size 1 2 [3, 5] (by omega) rfl⟩

/-- C2 counterexample: at `msg_size = 2^63` (a value `static_cast< size_t >(
std::stod( "9223372036854775808" ) )` produces exactly) the `size_t`
product `2 * msg_size` of line 142 wraps to 0, so the per-rank sample is
`0`, not `2 * msg_size / duration / 1e9`, refuting the claim's law at this
input (here with duration 1 s). -/
theorem c2_counterexample :
    bandwidthOf 9223372036854775808 1 = 0 ∧
    2 * (9223372036854775808 : ℚ) / 1 / 1000000000 ≠ 0 := by
  constructor
  · unfold bandwidthOf; norm_num
  · norm_num

/-- C2 (amended): for every `msg_size < 2^63` — so that the `size_t`
product `2 * msg_size` of line 142 does not wrap — the per-rank bandwidth
sample of every rank `r` equals `2 * msg_size / duration / 1e9` GB/s; and
at the spec's example `msg_size = 64,000,000` bytes, `duration =
0.120738` s, the sample formats at 3 decimals to `1.060` GB/s. -/
theorem c2_bandwidth_law (msg_size : Nat) (dts : List ℚ) (r : Nat)
    (hmsg : msg_size < 9223372036854775808) (hr : r < dts.length) :
    (iterationSamples msg_size dts).getD r 0 =
      2 * (msg_size : ℚ) / dts.getD r 0 / 1000000000 ∧
    fmtFixed3 (bandwidthOf 64000000 (120738 / 1000000)) = "1.060" := by
  constructor
  · rw [iterationSamples_getD msg_size dts r hr]
    unfold bandwidthOf
    rw [Nat.mod_eq_of_lt (by omega)]
    push_cast
    ring
  · rw [show bandwidthOf 64000000 (120738 / 1000000) = 64000 / 60369 from by
      unfold bandwidthOf; norm_num]
    simp only [fmtFixed3]
    rw [show ⌊(64000 / 60369 : ℚ) * 1000 + 1 / 2⌋ = (1060 : Int) from by
      rw [Int.floor_eq_iff]
      norm_num]
    rfl

theorem c2_witness :
    64000000 < 9223372036854775808 ∧ 0 < ([(120738 / 1000000 : ℚ)]).length ∧
    ((iterationSamples 64000000 [120738 / 1000000]).getD 0 0 =
      2 * (64000000 : ℚ) / ([(120738 / 1000000 : ℚ)]).getD 0 0 / 1000000000 ∧
     fmtFixed3 (bandwidthOf 64000000 (120738 / 1000000)) = "1.060") :=
  ⟨by omega, Nat.one_pos, c2_bandwidth_law 64000000 [120738 / 1000000] 0 (by omega) Nat.one_pos⟩

/-- C3: for every group size `N ≥ 1` and rank `r ∈ [0, N)`, the ring
neighbours computed at lines 90-91 with C++ truncated `%` satisfy
`next = (r + 1) mod N` and `prev = (r - 1 + N) mod N` (mathematical mod),
and for `N = 1` both equal `r` (self-ring). -/
theorem c3_ring_topology (N r : Int) (hN : 1 ≤ N) (h0 : 0 ≤ r) (hr : r < N) :
    ringNext r N = (r + 1) % N ∧ ringPrev r N = (r - 1 + N) % N ∧
    (N = 1 → ringNext r N = r ∧ ringPrev r N = r) := by
  refine ⟨Int.tmod_eq_emod (by omega) (by omega),
          Int.tmod_eq_emod (by omega) (by omega), ?_⟩
  intro h1
  subst h1
  have hr0 : r = 0 := by omega
  subst hr0
  exact ⟨by decide, by decide⟩

theorem c3_witness :
    1 ≤ (4 : Int) ∧ (0 : Int) ≤ 3 ∧ (3 : Int) < 4 ∧
    (ringNext 3 4 = (3 + 1) % 4 ∧ ringPrev 3 4 = (3 - 1 + 4) % 4 ∧
     ((4 : Int) = 1 → ringNext 3 4 = 3 ∧ ringPrev 3 4 = 3)) :=
  ⟨by decide, by decide, by decide, c3_ring_topology 4 3 (by decide) (by decide) (by decide)⟩

/-- C4 (code bug): the source never reads `--interval`.  Even though the
flag parser would find `--interval=0` (first conjunct), the configuration
keeps the hard-coded interval `1.0` of line 71, the sleep of
lines 118-121 is still performed (third conjunct), and the whole
configuration is unchanged by the flag (fourth conjunct) — contradicting
the repository README, which documents `--interval` as a supported
option. -/
theorem c4_interval_flag_ignored :
    get_flag_value ["--interval=0"] "--interval" = some "0" ∧
    (parseConfig ["--interval=0"]).interval_sec = 1 ∧
    sleepBeforeBarrier (parseConfig ["--interval=0"]) = true ∧
    parseConfig ["--interval=0"] = parseConfig [] := by
  refine ⟨by decide, rfl, ?_, rfl⟩
  simp only [sleepBeforeBarrier, parseConfig, decide_eq_true_eq]
  norm_num

/-- C5 counterexample: the host path allocates with `malloc`
(lines 112-113) and performs no zeroing, so in an environment where the
memory returned by `malloc` holds the byte 7 the freshly allocated host
send buffer is not zero-initialised, refuting the claim for the Host
memory space. -/
theorem c5_counterexample :
    (allocateBuffers MemSpace.host 4 (fun _ => 7) (fun _ => 7)).send_buf 0 = 7 ∧
    (7 : Nat) ≠ 0 :=
  ⟨rfl, by omega⟩

/-- C5 (amended): at startup the Buffer Manager allocates two buffers
(send and receive) of exactly `msg_size` bytes each in the selected
space; in Device space both are zero-initialised (`cudaMemset` at
lines 102-103) before the first iteration, while in Host space the
buffers are obtained from `malloc` (lines 112-113) and keep the
indeterminate contents the allocator supplies. -/
theorem c5_buffer_allocation (msg_size : Nat) (raw_send raw_recv : Nat → Nat) :
    (allocateBuffers MemSpace.host msg_size raw_send raw_recv).size = msg_size ∧
    (allocateBuffers MemSpace.device msg_size raw_send raw_recv).size = msg_size ∧
    (∀ i, (allocateBuffers MemSpace.device msg_size raw_send raw_recv).send_buf i = 0) ∧
    (∀ i, (allocateBuffers MemSpace.device msg_size raw_send raw_recv).recv_buf i = 0) ∧
    (∀ i, (allocateBuffers MemSpace.host msg_size raw_send raw_recv).send_buf i = raw_send i) ∧
    (∀ i, (allocateBuffers MemSpace.host msg_size raw_send raw_recv).recv_buf i = raw_recv i) :=
  ⟨rfl, rfl, fun _ => rfl, fun _ => rfl, fun _ => rfl, fun _ => rfl⟩

/-- C6 (code bug): the `--mem-copy-local` mode documented by the README
is not implemented.  The flag is present on the command line (first
conjunct) yet leaves the parsed configuration untouched (second
conjunct), and the loop body's communication is the unconditional
`MPI_Sendrecv` of lines 126-138 — never a local memory copy — even in the
single-process self-ring (`next = prev = 0`). -/
theorem c6_local_copy_mode_absent :
    has_flag ["--mem-copy-local"] "--mem-copy-local" = true ∧
    parseConfig ["--mem-copy-local"] = parseConfig [] ∧
    iterationExchange (parseConfig ["--mem-copy-local"]) 0 0 =
      ExchangeOp.sendrecv 1048576 0 0 ∧
    ∀ next prev : Int,
      iterationExchange (parseConfig ["--mem-copy-local"]) next prev ≠
        ExchangeOp.localMemcpy := by
  refine ⟨by decide, rfl, by decide, fun next prev h => ExchangeOp.noConfusion h⟩

/-- C7: on a build without CUDA support (`USE_CUDA` undefined), whenever
`--gpu` is among the arguments, every rank's setup ends in
`MPI_Abort( MPI_COMM_WORLD, 1 )` — a non-zero exit reached before the
measurement loop — no per-iteration statistics line is ever emitted on
any rank, and rank 0 emits the diagnostic identifying the mismatch before
the abort (lines 104-108). -/
theorem c7_gpu_mode_without_cuda (args : List String) (rank : Int)
    (num_processes : Nat) (dtss : List (List ℚ)) (raw_send raw_recv : Nat → Nat)
    (hg : has_flag args "--gpu" = true) :
    (runRank false args rank num_processes dtss raw_send raw_recv).exitCode = some 1 ∧
    (runRank false args rank num_processes dtss raw_send raw_recv).statsLines = [] ∧
    (runRank false args 0 num_processes dtss raw_send raw_recv).errLines = [gpuBuildError] := by
  refine ⟨?_, ?_, ?_⟩ <;> simp [runRank, preLoop, parseConfig, hg]

theorem c7_witness :
    has_flag ["--gpu"] "--gpu" = true ∧
    ((runRank false ["--gpu"] 5 2 [[1]] (fun _ => 0) (fun _ => 0)).exitCode = some 1 ∧
     (runRank false ["--gpu"] 5 2 [[1]] (fun _ => 0) (fun _ => 0)).statsLines = [] ∧
     (runRank false ["--gpu"] 0 2 [[1]] (fun _ => 0) (fun _ => 0)).errLines = [gpuBuildError]) :=
  ⟨by decide, c7_gpu_mode_without_cuda ["--gpu"] 5 2 [[1]] (fun _ => 0) (fun _ => 0) (by decide)⟩

/-- C8 (code bug): the CUDA-build setup never queries how many devices
exist and never selects one — its complete device interaction is the two
allocations and two zeroings of lines 99-103 — so a process-count /
device-count mismatch cannot be detected: a 4-process `--gpu` run on a
CUDA build proceeds straight into the measurement loop (exit code `none`)
and prints statistics, regardless of how many physical accelerators the
node has. -/
theorem c8_no_device_count_check :
    (∀ msg_size : Nat, queriesDeviceCount (cudaSetupCalls msg_size) = false ∧
      selectsDevice (cudaSetupCalls msg_size) = false) ∧
    (runRank true ["--gpu"] 0 4 [[1]] (fun _ => 0) (fun _ => 0)).exitCode = none ∧
    (runRank true ["--gpu"] 0 4 [[1]] (fun _ => 0) (fun _ => 0)).statsLines.length = 1 :=
  ⟨fun _ => ⟨rfl, rfl⟩, rfl, rfl⟩

/-- C9: the root-rank statistics line is a deterministic function of the
aggregated values: two iterations of a run whose injected per-rank
samples coincide produce byte-identical output lines, and each line is
the fixed-order, fixed-3-decimal rendering (bandwidth min, max, avg in
GB/s, then duration min, max, avg in ms) of the six aggregates. -/
theorem c9_deterministic_report (msg_size num_processes : Nat)
    (dtss : List (List ℚ)) (i j : Nat) (h : dtss[i]? = dtss[j]?) :
    (rootStatsLines msg_size num_processes dtss)[i]? =
      (rootStatsLines msg_size num_processes dtss)[j]? ∧
    ∀ dts : List ℚ,
      iterationLine msg_size num_processes dts =
        reportLine (iterationStats msg_size num_processes dts).bw_min
          (iterationStats msg_size num_processes dts).bw_max
          (iterationStats msg_size num_processes dts).bw_avg
          (iterationStats msg_size num_processes dts).dt_min
          (iterationStats msg_size num_processes dts).dt_max
          (iterationStats msg_size num_processes dts).dt_avg := by
  refine ⟨?_, fun dts => rfl⟩
  simp only [rootStatsLines, List.getElem?_map, h]

theorem c9_witness :
    ([[(2 : ℚ)], [(2 : ℚ)]])[0]? = ([[(2 : ℚ)], [(2 : ℚ)]])[1]? ∧
    (rootStatsLines 8 1 [[(2 : ℚ)], [(2 : ℚ)]])[0]? =
      (rootStatsLines 8 1 [[(2 : ℚ)], [(2 : ℚ)]])[1]? :=
  ⟨rfl, (c9_deterministic_report 8 1 [[(2 : ℚ)], [(2 : ℚ)]] 0 1 rfl).1⟩

/-- C10 counterexample: at `msg_size = 2^63` the claim's conjunction
fails: the transfer count (the `static_cast< int >` of lines 128/133)
indeed differs from `msg_size` — it is 0 — but the bandwidth computation
does NOT use the full `msg_size`, because the `size_t` product
`2 * msg_size` of line 142 wraps modulo `2^64` to 0 (duration 2 s
here). -/
theorem c10_counterexample :
    int32cast 9223372036854775808 = 0 ∧
    (0 : Int) ≠ (9223372036854775808 : Int) ∧
    bandwidthOf 9223372036854775808 2 ≠ 2 * (9223372036854775808 : ℚ) / 2 / 1000000000 := by
  refine ⟨by decide, by decide, ?_⟩
  unfold bandwidthOf
  norm_num

/-- C10 (amended): for every `msg_size` exceeding `2^31 - 1`, the byte
count handed to `MPI_Sendrecv` — `msg_size` reduced modulo `2^32` and
reinterpreted as a signed 32-bit value — differs from `msg_size`, while
the bandwidth computation of line 142 uses the full `msg_size` whenever
`msg_size < 2^63` (beyond that the `size_t` product `2 * msg_size` itself
wraps modulo `2^64`). -/
theorem c10_count_truncation (msg_size : Nat) (dt : ℚ) (next prev : Int)
    (hbig : 2147483647 < msg_size) :
    int32cast msg_size ≠ (msg_size : Int) ∧
    (∀ itv : ℚ, ∀ g : Bool,
      iterationExchange (Config.mk msg_size itv g) next prev =
        ExchangeOp.sendrecv (int32cast msg_size) next prev) ∧
    (msg_size < 9223372036854775808 →
      bandwidthOf msg_size dt = 2 * (msg_size : ℚ) / dt / 1000000000) := by
  refine ⟨?_, fun itv g => rfl, fun hsmall => ?_⟩
  · unfold int32cast
    split <;> intro heq <;> omega
  · unfold bandwidthOf
    rw [Nat.mod_eq_of_lt (by omega)]
    push_cast
    ring

theorem c10_witness :
    2147483647 < 2147483648 ∧
    (int32cast 2147483648 ≠ (2147483648 : Int) ∧
     (∀ itv : ℚ, ∀ g : Bool,
       iterationExchange (Config.mk 2147483648 itv g) 1 0 =
         ExchangeOp.sendrecv (int32cast 2147483648) 1 0) ∧
     (2147483648 < 9223372036854775808 →
       bandwidthOf 2147483648 1 = 2 * (2147483648 : ℚ) / 1 / 1000000000)) :=
  ⟨by omega, c10_count_truncation 2147483648 1 1 0 (by omega)⟩

end MpiCommBench
